import Mathlib

/-!
Shallow embedding of `pymachinetalk/dns_sd.py` (classes `Service`,
`ServiceDiscoveryFilter`, `ServiceDiscovery`, `ServiceContainer`).

Modelling conventions:
* Python byte-strings and decoded strings share the Lean type `String`
  (`bytes.decode()` preserves content); where the *type* of a Python value
  matters (the `version` field holds an `int` in one state and a byte-string
  in the other) we use the sum type `VersionValue`.
* A `ServiceInfo` record (from the external zeroconf library) is the record
  the spec calls a "discovery record": a name, an announced type string and
  TXT properties.  Python dicts become association lists looked up by first
  key occurrence; `d.get(k, dflt)` is `propGet`, the raising `d[k]` is
  `propGet?` combined with an explicit `KeyError` value.
* Python exceptions become `Except PyError`; a raised exception propagates
  before any further mutation, so an `.error` result stands for "the call
  raised and the object was left as it was at raise time".
* Callback lists (`on_ready_changed`, `on_services_ready_changed`) hold
  opaque callback identifiers (`Nat`); invoking the callbacks is modelled by
  emitting the event trace `List (Nat × Bool)` (callback id, value passed),
  one event per subscribed callback.
* Python list identity-based `remove` is modelled by structural first-match
  removal, adequate because the embedding never aliases distinct equal
  objects.
-/

/-- A resolved DNS-SD discovery record, as returned by
`zeroconf.get_service_info`: `name`, announced `type` string, and TXT
`properties` (byte-string keys and values). -/
structure ServiceInfo where
  name : String
  type : String
  properties : List (String × String)
deriving Repr, DecidableEq

/-- Python `d.get(key, dflt)` on a dict modelled as an association list. -/
def propGet (props : List (String × String)) (key : String) (dflt : String) : String :=
  match props.find? (fun p => p.1 = key) with
  | some p => p.2
  | none => dflt

/-- Python `d[key]` lookup that distinguishes the missing-key case. -/
def propGetOpt (props : List (String × String)) (key : String) : Option String :=
  (props.find? (fun p => p.1 = key)).map (fun p => p.2)

/-- Python exceptions raised by this module. -/
inductive PyError where
  | typeError (msg : String)
  | keyError (key : String)
  | runtimeError (msg : String)
  | valueError (msg : String)
deriving Repr, DecidableEq

/-- Python's `needle in hay` on strings: substring containment, decidable
and executable. -/
def pyIn (needle hay : String) : Bool :=
  (List.range (hay.toList.length + 1)).any
    (fun i => (hay.toList.drop i).take needle.toList.length = needle.toList)

/-- The value of `Service.version`: the Python attribute holds the `int` `0`
in the cleared state and a raw byte-string in the resolved state. -/
inductive VersionValue where
  | int (n : Int)
  | bytes (b : String)
deriving Repr, DecidableEq

/-- State of a `Service` object (`dns_sd.Service`).  `_ready` is the private
backing field of the `ready` property; `on_ready_changed` is the list of
subscribed callbacks (by identifier). -/
structure Service where
  type : String
  domain : String
  base_type : String
  protocol : String
  name : String
  uri : String
  uuid : String
  version : VersionValue
  _ready : Bool
  service_infos : List ServiceInfo
  on_ready_changed : List Nat
deriving Repr, DecidableEq

/-- `Service.__init__(type_)`. -/
def Service.init (type_ : String) : Service :=
  { type := type_, domain := "local", base_type := "machinekit", protocol := "tcp"
    name := "", uri := "", uuid := "", version := .int 0
    _ready := false, service_infos := [], on_ready_changed := [] }

/-- The `ready` property setter: assigns and fires every subscribed callback
with the new value, but only when the value actually changes. -/
def Service.setReady (s : Service) (value : Bool) : Service × List (Nat × Bool) :=
  if value ≠ s._ready then
    ({ s with _ready := value }, s.on_ready_changed.map (fun cb => (cb, value)))
  else
    (s, [])

/-- `Service.typestring`: `'_%s._%s.%s.' % (base_type, protocol, domain)`. -/
def Service.typestring (s : Service) : String :=
  "_" ++ s.base_type ++ "._" ++ s.protocol ++ "." ++ s.domain ++ "."

/-- `Service.matches_service_info(info)`. -/
def Service.matches_service_info (s : Service) (info : ServiceInfo) : Bool :=
  (s.type = propGet info.properties "service" "") && pyIn s.typestring info.type

/-- `Service.__eq__(other)` for `other` a `ServiceInfo`: compares the
*service's* resolved name with the record's name.  (For any other operand
type the Python method returns `False`.) -/
def Service.eqServiceInfo (s : Service) (other : ServiceInfo) : Bool :=
  s.name = other.name

/-- `Service._set_all_values_from_service_info(info)`.  Note: `name`, `uri`
and `uuid` are decoded strings while `version` is assigned the *raw*
byte-string value of the `version` TXT key (no `.decode()` in the source). -/
def Service.set_all_values_from_service_info (s : Service) (info : ServiceInfo) : Service :=
  { s with
    name := info.name
    uri := propGet info.properties "dsn" ""
    uuid := propGet info.properties "uuid" ""
    version := .bytes (propGet info.properties "version" "") }

/-- `Service._init_all_values()`. -/
def Service.init_all_values (s : Service) : Service :=
  { s with name := "", uri := "", uuid := "", version := .int 0 }

/-- `Service._update()`: non-empty collection ⇒ mirror the first record then
set ready; empty ⇒ clear ready then reset the fields.  Returns the state and
the callback events fired by the `ready` setter. -/
def Service.update (s : Service) : Service × List (Nat × Bool) :=
  match s.service_infos with
  | info :: _ =>
    (s.set_all_values_from_service_info info).setReady true
  | [] =>
    let r := s.setReady false
    (r.1.init_all_values, r.2)

/-- `Service.add_service_info(info)`. -/
def Service.add_service_info (s : Service) (info : ServiceInfo) : Service × List (Nat × Bool) :=
  ({ s with service_infos := s.service_infos ++ [info] }).update

/-- Helper for `remove_service_info`: the source's `for info in
self.service_infos: if self == info: self.service_infos.remove(info); break`.
The loop variable shadows the method's parameter, so the record searched for
is the first stored record whose *name equals the service's own resolved
name* — the argument plays no role. -/
def removeFirstByName (infos : List ServiceInfo) (selfName : String) : List ServiceInfo :=
  match infos with
  | [] => []
  | i :: rest => if i.name = selfName then rest else i :: removeFirstByName rest selfName

/-- `Service.remove_service_info(info)`: because of the loop-variable
shadowing, the parameter `info` is never consulted. -/
def Service.remove_service_info (s : Service) (_info : ServiceInfo) : Service × List (Nat × Bool) :=
  ({ s with service_infos := removeFirstByName s.service_infos s.name }).update

/-- `Service.clear_service_infos()`. -/
def Service.clear_service_infos (s : Service) : Service × List (Nat × Bool) :=
  ({ s with service_infos := [] }).update

/-- The C1 invariant: `ready` iff the record collection is non-empty;
resolved fields mirror the first record when ready and are reset otherwise. -/
def serviceInvariant (s : Service) : Prop :=
  s._ready = !s.service_infos.isEmpty ∧
  (match s.service_infos with
   | info :: _ =>
       s.name = info.name ∧
       s.uri = propGet info.properties "dsn" "" ∧
       s.uuid = propGet info.properties "uuid" "" ∧
       s.version = .bytes (propGet info.properties "version" "")
   | [] => s.name = "" ∧ s.uri = "" ∧ s.uuid = "" ∧ s.version = .int 0)

/-- A value passed where the Python code performs an `isinstance` check:
either a genuine `ServiceInfo` or some other object (with a tag naming its
type). -/
inductive PyObject where
  | serviceInfo (i : ServiceInfo)
  | other (tag : String)
deriving Repr, DecidableEq

/-- State of a `ServiceDiscoveryFilter`:
required substring `name` and required TXT key/value pairs (a dict, modelled
as an association list in insertion order). -/
structure ServiceDiscoveryFilter where
  name : String
  txt_records : List (String × String)
deriving Repr, DecidableEq

/-- The TXT-record loop of `ServiceDiscoveryFilter.matches_service_info`:
`for name, value in six.iteritems(self.txt_records): if not
info.properties[name] == value: match = False; break`.  The strict
`properties[name]` lookup raises `KeyError` when the key is absent; a value
mismatch breaks out returning the (now `False`) match flag.  The loop runs
even when the preceding name check already cleared `match`. -/
def checkTxtRecords (props : List (String × String)) :
    List (String × String) → Bool → Except PyError Bool
  | [], matchFlag => .ok matchFlag
  | (name, value) :: rest, matchFlag =>
    match propGetOpt props name with
    | none => .error (.keyError name)
    | some v => if ¬(v = value) then .ok false else checkTxtRecords props rest matchFlag

/-- `ServiceDiscoveryFilter.matches_service_info(info)` on a genuine
record. -/
def ServiceDiscoveryFilter.matches_service_info
    (f : ServiceDiscoveryFilter) (info : ServiceInfo) : Except PyError Bool :=
  checkTxtRecords info.properties f.txt_records (pyIn f.name info.name)

/-- `ServiceDiscoveryFilter.matches_service_info` including the
`isinstance(info, ServiceInfo)` guard: a non-record argument raises
`TypeError`. -/
def ServiceDiscoveryFilter.matchesObject
    (f : ServiceDiscoveryFilter) (obj : PyObject) : Except PyError Bool :=
  match obj with
  | .serviceInfo i => f.matches_service_info i
  | .other _ => .error (.typeError "must pass a ServiceInfo object")

/-- State of a `ServiceContainer`: member services and the private
`_services_ready` backing field, plus subscribed callbacks. -/
structure ServiceContainer where
  _services : List Service
  _services_ready : Bool
  on_services_ready_changed : List Nat
deriving Repr, DecidableEq

/-- `ServiceContainer.__init__()`. -/
def ServiceContainer.init : ServiceContainer :=
  { _services := [], _services_ready := false, on_services_ready_changed := [] }

/-- Callback identifier standing for a container's bound method
`self._update_services_ready`, appended to a member's `on_ready_changed`
list on `add_service`. -/
def updateServicesReadyCb : Nat := 0

/-- The `services_ready` property setter: assigns and fires the subscribed
callbacks only when the value actually changes (`value is not
self._services_ready`, identity on booleans = inequality). -/
def ServiceContainer.setServicesReady (c : ServiceContainer) (value : Bool) :
    ServiceContainer × List (Nat × Bool) :=
  if value ≠ c._services_ready then
    ({ c with _services_ready := value },
     c.on_services_ready_changed.map (fun cb => (cb, value)))
  else
    (c, [])

/-- `ServiceContainer.add_service(service)`: appends the member and
subscribes `self._update_services_ready` to its ready notifications.
(The `isinstance(service, Service)` guard is enforced by the type here;
`services_ready` is not recomputed.)  Returns the container and the updated
member object. -/
def ServiceContainer.add_service (c : ServiceContainer) (s : Service) :
    ServiceContainer × Service :=
  ({ c with _services := c._services ++ [s] },
   { s with on_ready_changed := s.on_ready_changed ++ [updateServicesReadyCb] })

/-- First-match removal of a service from a Python list (stand-in for
identity-based `list.remove`). -/
def removeFirstService (l : List Service) (s : Service) : List Service :=
  match l with
  | [] => []
  | x :: rest => if x = s then rest else x :: removeFirstService rest s

/-- First-match removal of a callback identifier (`list.remove` on
`on_ready_changed`). -/
def removeFirstNat (l : List Nat) (n : Nat) : List Nat :=
  match l with
  | [] => []
  | x :: rest => if x = n then rest else x :: removeFirstNat rest n

/-- `ServiceContainer.remove_service(service)`: removes the member and
unsubscribes the handler; `services_ready` is not recomputed. -/
def ServiceContainer.remove_service (c : ServiceContainer) (s : Service) :
    ServiceContainer × Service :=
  ({ c with _services := removeFirstService c._services s },
   { s with on_ready_changed := removeFirstNat s.on_ready_changed updateServicesReadyCb })

/-- `ServiceContainer._update_services_ready(_)`: recomputes the AND of
`service.ready` over the members (early exit on the first not-ready member)
and pushes it through the `services_ready` setter. -/
def ServiceContainer.update_services_ready (c : ServiceContainer) :
    ServiceContainer × List (Nat × Bool) :=
  c.setServicesReady (c._services.all (fun s => s._ready))

/-- A `ServiceBrowser` handle: the type string browsed, the optional
unicast target address, and the poll delay. -/
structure Browser where
  typeString : String
  addr : Option String
  delay : Nat
deriving Repr, DecidableEq

/-- A `Zeroconf` session handle (multicast, or unicast when constructed
with `unicast=True`). -/
structure ZeroconfHandle where
  unicast : Bool
deriving Repr, DecidableEq

/-- State of a `ServiceDiscovery` object.  In the source `_browsers` and
`_zeroconfs` start as `None`; every use tests only their truthiness or
iterates them after they were (re)assigned `[]`, so the empty list is an
observationally equivalent initial value. -/
structure ServiceDiscovery where
  service_type : String
  filter : ServiceDiscoveryFilter
  nameservers : List String
  lookup_interval : Nat
  is_ready : Bool
  services : List Service
  _browsers : List Browser
  _zeroconfs : List ZeroconfHandle
deriving Repr, DecidableEq

/-- `ServiceDiscovery.__init__`.  The Python defaults are
`service_type='machinekit'`, an empty filter, no nameservers and
`_LOOKUP_INTERVAL = 500`; `defaultServiceDiscovery` below instantiates
them. -/
def ServiceDiscovery.init (service_type : String)
    (filter_ : ServiceDiscoveryFilter)
    (nameservers : List String) (lookup_interval : Nat) : ServiceDiscovery :=
  { service_type, filter := filter_, nameservers, lookup_interval,
    is_ready := false, services := [], _browsers := [], _zeroconfs := [] }

/-- `ServiceDiscovery()` with every constructor default. -/
def defaultServiceDiscovery : ServiceDiscovery :=
  ServiceDiscovery.init "machinekit" ⟨"", []⟩ [] 500

/-- `ServiceDiscovery._start_multicast_discovery()`. -/
def ServiceDiscovery.start_multicast_discovery (sd : ServiceDiscovery) : ServiceDiscovery :=
  let type_string := "_" ++ sd.service_type ++ "._tcp.local."
  { sd with
    _zeroconfs := sd._zeroconfs ++ [⟨false⟩]
    _browsers := sd._browsers ++ [⟨type_string, none, sd.lookup_interval⟩] }

/-- `ServiceDiscovery._start_unicast_discovery()`: one unicast `Zeroconf`
per registered service, and one browser per (service, nameserver) pair. -/
def ServiceDiscovery.start_unicast_discovery (sd : ServiceDiscovery) : ServiceDiscovery :=
  sd.services.foldl
    (fun (acc : ServiceDiscovery) service =>
      let type_string :=
        "_" ++ service.type ++ "._sub._" ++ acc.service_type ++ "._tcp.local."
      let acc := { acc with _zeroconfs := acc._zeroconfs ++ [ZeroconfHandle.mk true] }
      acc.nameservers.foldl
        (fun (acc2 : ServiceDiscovery) nameserver =>
          { acc2 with
            _browsers := acc2._browsers ++
              [Browser.mk type_string (some nameserver) acc2.lookup_interval] })
        acc)
    sd

/-- `ServiceDiscovery._start_discovery()`: resets the handle lists, then
chooses unicast mode iff `any(self.nameservers)` — i.e. at least one
nameserver entry is truthy (a non-empty string). -/
def ServiceDiscovery.start_discovery (sd : ServiceDiscovery) : ServiceDiscovery :=
  let sd := { sd with _zeroconfs := [], _browsers := [] }
  if sd.nameservers.any (fun ns => ns ≠ "") then
    sd.start_unicast_discovery
  else
    sd.start_multicast_discovery

/-- `ServiceDiscovery._stop_discovery()`: closes the sessions, empties both
handle lists (`del ...[:]`), and clears every registered service's records.
Returns the state and the ready-change events fired by the services. -/
def ServiceDiscovery.stop_discovery (sd : ServiceDiscovery) :
    ServiceDiscovery × List (Nat × Bool) :=
  let sd := { sd with _zeroconfs := [], _browsers := [] }
  let cleared := sd.services.foldl
    (fun (acc : List Service × List (Nat × Bool)) s =>
      let r := s.clear_service_infos
      (acc.1 ++ [r.1], acc.2 ++ r.2))
    ([], [])
  ({ sd with services := cleared.1 }, cleared.2)

/-- `ServiceDiscovery.start()`: guarded by `if not self._browsers`. -/
def ServiceDiscovery.start (sd : ServiceDiscovery) : ServiceDiscovery :=
  if sd._browsers.isEmpty then
    ({ sd with is_ready := true }).start_discovery
  else
    sd

/-- `ServiceDiscovery.stop()`: guarded by `if self._browsers`. -/
def ServiceDiscovery.stop (sd : ServiceDiscovery) : ServiceDiscovery × List (Nat × Bool) :=
  if sd._browsers.isEmpty then
    (sd, [])
  else
    ({ sd with is_ready := false }).stop_discovery

/-- An argument to `register`/`unregister`: a `Service`, a
`ServiceContainer`, or anything else (rejected with `TypeError`). -/
inductive RegItem where
  | service (s : Service)
  | container (c : ServiceContainer)
  | other (tag : String)
deriving Repr, DecidableEq

/-- Runs a per-service command over a list of services (the loop in
`_verify_item_and_run` for a container), stopping at the first raised
exception but keeping the mutations already performed, as Python would. -/
def runCmds (cmd : List Service → Service → List Service × Option PyError) :
    List Service → List Service → List Service × Option PyError
  | [], acc => (acc, none)
  | s :: rest, acc =>
    match cmd acc s with
    | (acc2, none) => runCmds cmd rest acc2
    | (acc2, some e) => (acc2, some e)

/-- `ServiceDiscovery._verify_item_and_run(item, cmd)`: applies `cmd` to
every contained service of a container, to a single service directly, and
raises `TypeError` otherwise.  The returned pair is the registry state at
return/raise time together with the raised exception, if any. -/
def ServiceDiscovery.verify_item_and_run (item : RegItem)
    (cmd : List Service → Service → List Service × Option PyError)
    (services : List Service) : List Service × Option PyError :=
  match item with
  | .container c => runCmds cmd c._services services
  | .service s => cmd services s
  | .other _ => (services, some (.typeError "passed unregisterable item"))

/-- `self.services.append` as a command. -/
def appendCmd (l : List Service) (s : Service) : List Service × Option PyError :=
  (l ++ [s], none)

/-- `self.services.remove` as a command: removes the first matching element,
raising `ValueError` when none is present. -/
def removeCmd (l : List Service) (s : Service) : List Service × Option PyError :=
  if l.contains s then (removeFirstService l s, none)
  else (l, some (.valueError "list.remove(x): x not in list"))

/-- `ServiceDiscovery.register(item)`: raises `RuntimeError` while the
discovery is running (`self.is_ready`), otherwise appends.  Returns the
state at return/raise time and the raised exception, if any. -/
def ServiceDiscovery.register (sd : ServiceDiscovery) (item : RegItem) :
    ServiceDiscovery × Option PyError :=
  if sd.is_ready then
    (sd, some (.runtimeError "cannot register service when service discovery is already running"))
  else
    let r := ServiceDiscovery.verify_item_and_run item appendCmd sd.services
    ({ sd with services := r.1 }, r.2)

/-- `ServiceDiscovery.unregister(item)`: raises `RuntimeError` while the
discovery is running, otherwise removes. -/
def ServiceDiscovery.unregister (sd : ServiceDiscovery) (item : RegItem) :
    ServiceDiscovery × Option PyError :=
  if sd.is_ready then
    (sd, some (.runtimeError "cannot unregister service when service discovery is already running"))
  else
    let r := ServiceDiscovery.verify_item_and_run item removeCmd sd.services
    ({ sd with services := r.1 }, r.2)

/-- The dispatch loop shared by the `add_service`/`remove_service` zeroconf
callbacks: for each registered service, evaluate the global filter (which
may raise) and the service's own predicate, and apply `act` on a match.
Returns the updated service list and the concatenated callback events. -/
def dispatchLoop (filter : ServiceDiscoveryFilter) (info : ServiceInfo)
    (act : Service → ServiceInfo → Service × List (Nat × Bool)) :
    List Service → Except PyError (List Service × List (Nat × Bool))
  | [] => .ok ([], [])
  | s :: rest =>
    match filter.matches_service_info info with
    | .error e => .error e
    | .ok fm =>
      let r := if fm && s.matches_service_info info then act s info else (s, [])
      match dispatchLoop filter info act rest with
      | .error e => .error e
      | .ok (l, evs) => .ok (r.1 :: l, r.2 ++ evs)

/-- `ServiceDiscovery.add_service(zeroconf, type_, name)` (the record-added
event callback).  The external resolution `zeroconf.get_service_info(type_,
name)` is passed in as an `Option ServiceInfo`; `none` models a resolution
miss, which returns with no state change. -/
def ServiceDiscovery.add_service (sd : ServiceDiscovery) (resolved : Option ServiceInfo) :
    Except PyError (ServiceDiscovery × List (Nat × Bool)) :=
  match resolved with
  | none => .ok (sd, [])
  | some info =>
    (dispatchLoop sd.filter info Service.add_service_info sd.services).map
      (fun r => ({ sd with services := r.1 }, r.2))

/-- `ServiceDiscovery.remove_service(zeroconf, type_, name)` (the
record-removed event callback). -/
def ServiceDiscovery.remove_service (sd : ServiceDiscovery) (resolved : Option ServiceInfo) :
    Except PyError (ServiceDiscovery × List (Nat × Bool)) :=
  match resolved with
  | none => .ok (sd, [])
  | some info =>
    (dispatchLoop sd.filter info Service.remove_service_info sd.services).map
      (fun r => ({ sd with services := r.1 }, r.2))

/-! ## Helper lemmas -/

/-- The `ready` setter never touches the record collection. -/
theorem setReady_service_infos (s : Service) (v : Bool) :
    (s.setReady v).1.service_infos = s.service_infos := by
  unfold Service.setReady
  split <;> rfl

/-- The `ready` setter always leaves the backing field equal to the
assigned value (both branches of the change guard). -/
theorem setReady_fst (s : Service) (v : Bool) :
    (s.setReady v).1 = { s with _ready := v } := by
  unfold Service.setReady
  split
  · rfl
  · next h =>
    simp only [ne_eq, Decidable.not_not] at h
    cases s
    simp_all

/-- The events fired by the `ready` setter: none on a no-op assignment, one
per subscribed callback on a transition. -/
theorem setReady_snd (s : Service) (v : Bool) :
    (s.setReady v).2 =
      if v = s._ready then [] else s.on_ready_changed.map (fun cb => (cb, v)) := by
  unfold Service.setReady
  split
  · next h => simp only [ne_eq] at h; simp [h]
  · next h =>
    simp only [ne_eq, Decidable.not_not] at h
    simp [h]

/-- `_update` on a non-empty record collection: the resolved fields mirror
the head record and `_ready` is set. -/
theorem update_fst_cons (s : Service) (info : ServiceInfo) (rest : List ServiceInfo)
    (h : s.service_infos = info :: rest) :
    (s.update).1 =
      { s with
        name := info.name
        uri := propGet info.properties "dsn" ""
        uuid := propGet info.properties "uuid" ""
        version := .bytes (propGet info.properties "version" "")
        _ready := true } := by
  unfold Service.update
  rw [h]
  simp only [Service.set_all_values_from_service_info, setReady_fst]
  rw [h]

/-- `_update` on an empty record collection: the resolved fields are reset
and `_ready` is cleared. -/
theorem update_fst_nil (s : Service) (h : s.service_infos = []) :
    (s.update).1 =
      { s with name := "", uri := "", uuid := "", version := .int 0, _ready := false } := by
  unfold Service.update
  rw [h]
  simp only [Service.init_all_values, setReady_fst]
  rw [h]

/-- `_update` establishes the C1 invariant from any state. -/
theorem update_invariant (s : Service) : serviceInvariant (s.update).1 := by
  cases h : s.service_infos with
  | nil =>
    rw [update_fst_nil s h]
    unfold serviceInvariant
    simp [h]
  | cons info rest =>
    rw [update_fst_cons s info rest h]
    unfold serviceInvariant
    simp [h]

/-- The `services_ready` setter always leaves the backing field equal to
the assigned value. -/
theorem setServicesReady_fst (c : ServiceContainer) (v : Bool) :
    (c.setServicesReady v).1 = { c with _services_ready := v } := by
  unfold ServiceContainer.setServicesReady
  split
  · rfl
  · next h =>
    simp only [ne_eq, Decidable.not_not] at h
    cases c
    simp_all

/-! ## C1 -/

/-- C1: after every mutating operation (`add_service_info`,
`remove_service_info`, `clear_service_infos`) on any `Service`, `ready` is
true iff the record collection is non-empty, the resolved fields `name`,
`uri`, `uuid`, `version` mirror the first record when ready, and are reset
to `''`/`''`/`''`/`0` when not ready. -/
theorem c1_ready_records_invariant (s : Service) (info : ServiceInfo) :
    serviceInvariant (s.add_service_info info).1 ∧
    serviceInvariant (s.remove_service_info info).1 ∧
    serviceInvariant (s.clear_service_infos).1 :=
  ⟨update_invariant _, update_invariant _, update_invariant _⟩

/-! ## C10 -/

/-- The typing of the `version` attribute: a raw byte-string mirroring the
head record's `version` TXT value (defaulting to the empty byte-string) in
the ready state, and the integer `0` — never a byte-string — in the
not-ready state. -/
def versionTypeOk (s : Service) : Prop :=
  (s._ready = true →
    ∃ i rest, s.service_infos = i :: rest ∧
      s.version = VersionValue.bytes (propGet i.properties "version" "") ∧
      ∀ n : Int, s.version ≠ VersionValue.int n) ∧
  (s._ready = false → s.version = VersionValue.int 0)

/-- Any state satisfying the C1 invariant has the C10 version typing. -/
theorem versionTypeOk_of_invariant (s : Service) (h : serviceInvariant s) :
    versionTypeOk s := by
  obtain ⟨hr, hfields⟩ := h
  constructor
  · intro hready
    rw [hready] at hr
    cases hinfos : s.service_infos with
    | nil => rw [hinfos] at hr; simp at hr
    | cons i rest =>
      rw [hinfos] at hfields
      exact ⟨i, rest, rfl, hfields.2.2.2, by rw [hfields.2.2.2]; intro n hn; cases hn⟩
  · intro hready
    rw [hready] at hr
    cases hinfos : s.service_infos with
    | nil => rw [hinfos] at hfields; exact hfields.2.2.2
    | cons i rest => rw [hinfos] at hr; simp at hr

/-- C10: after every mutating operation on a `Service`, when ready the
`version` field holds the raw byte-string value of the first record's
`version` TXT property (empty byte-string when absent) and is never the
integer value; when not ready it is exactly the integer `0`. -/
theorem c10_version_typing (s : Service) (info : ServiceInfo) :
    versionTypeOk (s.add_service_info info).1 ∧
    versionTypeOk (s.remove_service_info info).1 ∧
    versionTypeOk (s.clear_service_infos).1 :=
  ⟨versionTypeOk_of_invariant _ (update_invariant _),
   versionTypeOk_of_invariant _ (update_invariant _),
   versionTypeOk_of_invariant _ (update_invariant _)⟩

/-- Witness for C10 at a concrete input: one record carrying
`version=b'1.0'` makes the service ready with `version = b'1.0'`, and a
cleared service has `version = 0`. -/
theorem c10_witness :
    ((Service.init "webtalk").add_service_info
        ⟨"w1", "_machinekit._tcp.local.", [("version", "1.0")]⟩).1.version =
      VersionValue.bytes "1.0" ∧
    ((Service.init "webtalk").clear_service_infos).1.version = VersionValue.int 0 := by
  have h := c10_version_typing (Service.init "webtalk")
    ⟨"w1", "_machinekit._tcp.local.", [("version", "1.0")]⟩
  constructor
  · obtain ⟨i, rest, hinfos, hv, -⟩ := h.1.1 (by rfl)
    have hconc : ((Service.init "webtalk").add_service_info
        ⟨"w1", "_machinekit._tcp.local.", [("version", "1.0")]⟩).1.service_infos =
        [⟨"w1", "_machinekit._tcp.local.", [("version", "1.0")]⟩] := by rfl
    rw [hconc] at hinfos
    injection hinfos with h1 h2
    rw [hv, ← h1]
    rfl
  · exact h.2.2.2 (by rfl)

/-! ## C2 -/

/-- C2 counterexample: a freshly constructed, empty `ServiceContainer` has
`services_ready = False`, while the claim requires it to equal the
(vacuously true) AND of `ready` over its zero members. -/
theorem c2_counterexample :
    ServiceContainer.init._services = [] ∧
    ServiceContainer.init._services_ready ≠
      ServiceContainer.init._services.all (fun s => s._ready) := by
  constructor
  · rfl
  · intro h
    cases h

/-- C2 amended: `services_ready` equals the AND of `ready` over the members
only immediately after `_update_services_ready` runs (i.e. after a member
ready-change notification is processed), where it is indeed vacuously true
for an empty container; a freshly constructed container instead starts with
`services_ready = False`, and `add_service`/`remove_service` do not
recompute the flag. -/
theorem c2_services_ready_recompute (c : ServiceContainer) (s : Service) :
    (c.update_services_ready).1._services_ready = c._services.all (fun m => m._ready) ∧
    ServiceContainer.init._services_ready = false ∧
    (c.add_service s).1._services_ready = c._services_ready ∧
    (c.remove_service s).1._services_ready = c._services_ready := by
  refine ⟨?_, rfl, rfl, rfl⟩
  unfold ServiceContainer.update_services_ready
  rw [setServicesReady_fst]

/-- Counting events produced by mapping a value onto each callback id. -/
theorem count_map_pair (l : List Nat) (cb : Nat) (v : Bool) :
    (l.map (fun c => (c, v))).count (cb, v) = l.count cb := by
  induction l with
  | nil => rfl
  | cons a t ih => simp [List.count_cons, ih, beq_iff_eq, Prod.ext_iff]

/-! ## C8 -/

/-- C8: assigning the current value to `Service.ready` or
`ServiceContainer.services_ready` fires no callbacks and changes nothing,
while assigning the opposite value stores it and fires each subscribed
callback exactly once with the new value. -/
theorem c8_notification_per_transition (s : Service) (c : ServiceContainer) (v w : Bool) :
    (v = s._ready → s.setReady v = (s, [])) ∧
    (v ≠ s._ready →
      (s.setReady v).1 = { s with _ready := v } ∧
      (s.setReady v).2 = s.on_ready_changed.map (fun cb => (cb, v)) ∧
      ∀ cb : Nat, (s.setReady v).2.count (cb, v) = s.on_ready_changed.count cb) ∧
    (w = c._services_ready → c.setServicesReady w = (c, [])) ∧
    (w ≠ c._services_ready →
      (c.setServicesReady w).1 = { c with _services_ready := w } ∧
      (c.setServicesReady w).2 = c.on_services_ready_changed.map (fun cb => (cb, w)) ∧
      ∀ cb : Nat, (c.setServicesReady w).2.count (cb, w) =
        c.on_services_ready_changed.count cb) := by
  refine ⟨?_, ?_, ?_, ?_⟩
  · intro h
    unfold Service.setReady
    simp [h]
  · intro h
    refine ⟨setReady_fst s v, ?_, ?_⟩
    · unfold Service.setReady
      simp [h]
    · intro cb
      unfold Service.setReady
      simp only [ne_eq, h, not_false_iff, if_pos]
      exact count_map_pair s.on_ready_changed cb v
  · intro h
    unfold ServiceContainer.setServicesReady
    simp [h]
  · intro h
    refine ⟨setServicesReady_fst c w, ?_, ?_⟩
    · unfold ServiceContainer.setServicesReady
      simp [h]
    · intro cb
      unfold ServiceContainer.setServicesReady
      simp only [ne_eq, h, not_false_iff, if_pos]
      exact count_map_pair c.on_services_ready_changed cb w

/-- Witness for C8 at concrete inputs: a fresh service (not ready, one
subscriber) ignores a no-op `ready = False` and fires exactly one callback
on `ready = True`; the container side mirrors this. -/
theorem c8_witness :
    (let s : Service :=
      { Service.init "x" with on_ready_changed := [7] }
     s.setReady false = (s, []) ∧
     (s.setReady true).2 = [(7, true)] ∧
     (s.setReady true).2.count (7, true) = 1) ∧
    (let c : ServiceContainer :=
      { ServiceContainer.init with on_services_ready_changed := [9] }
     c.setServicesReady false = (c, []) ∧
     (c.setServicesReady true).2 = [(9, true)] ∧
     (c.setServicesReady true).2.count (9, true) = 1) := by
  have h1 := c8_notification_per_transition
    { Service.init "x" with on_ready_changed := [7] }
    { ServiceContainer.init with on_services_ready_changed := [9] } false false
  have h2 := c8_notification_per_transition
    { Service.init "x" with on_ready_changed := [7] }
    { ServiceContainer.init with on_services_ready_changed := [9] } true true
  refine ⟨⟨h1.1 rfl, ?_, ?_⟩, ⟨h1.2.2.1 rfl, ?_, ?_⟩⟩
  · exact (h2.2.1 (by decide)).2.1
  · have := (h2.2.1 (by decide)).2.2 7
    simpa using this
  · exact (h2.2.2.2 (by decide)).2.1
  · have := (h2.2.2.2 (by decide)).2.2 9
    simpa using this

/-! ## C3 and C9 -/

/-- While `is_ready` holds, `register`/`unregister` raise `RuntimeError`
before touching the registry. -/
theorem register_unregister_running (sd : ServiceDiscovery) (item : RegItem)
    (h : sd.is_ready = true) :
    sd.register item =
      (sd, some (.runtimeError "cannot register service when service discovery is already running")) ∧
    sd.unregister item =
      (sd, some (.runtimeError "cannot unregister service when service discovery is already running")) := by
  unfold ServiceDiscovery.register ServiceDiscovery.unregister
  rw [h]
  exact ⟨rfl, rfl⟩

/-- C3: on a running `ServiceDiscovery` (`is_ready` set by `start()`), any
`register(item)` or `unregister(item)` call raises the running-state
`RuntimeError` and returns with the registered-services collection — indeed
the whole state — unchanged. -/
theorem c3_register_while_running (sd : ServiceDiscovery) (item : RegItem)
    (h : sd.is_ready = true) :
    sd.register item =
      (sd, some (.runtimeError "cannot register service when service discovery is already running")) ∧
    sd.unregister item =
      (sd, some (.runtimeError "cannot unregister service when service discovery is already running")) :=
  register_unregister_running sd item h

/-- Witness for C3: a concrete running instance rejects both calls
unchanged. -/
theorem c3_witness :
    ({ defaultServiceDiscovery with is_ready := true } : ServiceDiscovery).register
        (.service (Service.init "w")) =
      ({ defaultServiceDiscovery with is_ready := true },
       some (.runtimeError "cannot register service when service discovery is already running")) ∧
    ({ defaultServiceDiscovery with is_ready := true } : ServiceDiscovery).unregister
        (.service (Service.init "w")) =
      ({ defaultServiceDiscovery with is_ready := true },
       some (.runtimeError "cannot unregister service when service discovery is already running")) :=
  c3_register_while_running { defaultServiceDiscovery with is_ready := true }
    (.service (Service.init "w")) rfl

/-- C9: with at least one (truthy) nameserver configured and no registered
services, `start()` sets `is_ready` yet opens no browsing session, a
subsequent `stop()` is a no-op (its guard tests `_browsers`, not
`is_ready`), so `is_ready` stays true and `register`/`unregister` keep
raising the running-state error: `is_ready` and "browsers are open" are not
equivalent. -/
theorem c9_is_ready_browsers_divergence (sd : ServiceDiscovery) (item : RegItem)
    (hns : sd.nameservers.any (fun ns => ns ≠ "") = true)
    (hsvc : sd.services = [])
    (hb : sd._browsers = []) :
    sd.start = { sd with is_ready := true, _zeroconfs := [], _browsers := [] } ∧
    (sd.start).is_ready = true ∧
    (sd.start)._browsers = [] ∧
    (sd.start).stop = (sd.start, []) ∧
    ((sd.start).stop).1.is_ready = true ∧
    (sd.start).register item =
      (sd.start, some (.runtimeError "cannot register service when service discovery is already running")) ∧
    (sd.start).unregister item =
      (sd.start, some (.runtimeError "cannot unregister service when service discovery is already running")) := by
  have huni : ({ sd with is_ready := true, _zeroconfs := [], _browsers := [] } :
      ServiceDiscovery).start_unicast_discovery
      = { sd with is_ready := true, _zeroconfs := [], _browsers := [] } := by
    unfold ServiceDiscovery.start_unicast_discovery
    have h2 : ({ sd with is_ready := true, _zeroconfs := [], _browsers := [] } :
        ServiceDiscovery).services = [] := hsvc
    rw [h2, List.foldl_nil]
  have hstart : sd.start = { sd with is_ready := true, _zeroconfs := [], _browsers := [] } := by
    unfold ServiceDiscovery.start
    rw [hb]
    show ({ sd with is_ready := true } : ServiceDiscovery).start_discovery = _
    unfold ServiceDiscovery.start_discovery
    show (if ({ sd with is_ready := true, _zeroconfs := [], _browsers := [] } :
        ServiceDiscovery).nameservers.any (fun ns => ns ≠ "") = true
      then ({ sd with is_ready := true, _zeroconfs := [], _browsers := [] } :
        ServiceDiscovery).start_unicast_discovery
      else ({ sd with is_ready := true, _zeroconfs := [], _browsers := [] } :
        ServiceDiscovery).start_multicast_discovery) = _
    have hc : ({ sd with is_ready := true, _zeroconfs := [], _browsers := [] } :
        ServiceDiscovery).nameservers.any (fun ns => ns ≠ "") = true := hns
    rw [if_pos hc]
    exact huni
  have hstop : (sd.start).stop = (sd.start, []) := by
    unfold ServiceDiscovery.stop
    rw [hstart]
    rfl
  have hreg := register_unregister_running sd.start item (by rw [hstart])
  exact ⟨hstart, by rw [hstart], by rw [hstart], hstop, by rw [hstop]; rw [hstart],
    hreg.1, hreg.2⟩

/-- Witness for C9: nameservers `["10.0.0.1"]`, no services. -/
theorem c9_witness :
    ((ServiceDiscovery.init "machinekit" ⟨"", []⟩ ["10.0.0.1"] 500).start)._browsers = [] ∧
    ((ServiceDiscovery.init "machinekit" ⟨"", []⟩ ["10.0.0.1"] 500).start).is_ready = true ∧
    (((ServiceDiscovery.init "machinekit" ⟨"", []⟩ ["10.0.0.1"] 500).start).stop).1.is_ready
      = true ∧
    ((ServiceDiscovery.init "machinekit" ⟨"", []⟩ ["10.0.0.1"] 500).start).register
        (.service (Service.init "w")) =
      ((ServiceDiscovery.init "machinekit" ⟨"", []⟩ ["10.0.0.1"] 500).start,
       some (.runtimeError "cannot register service when service discovery is already running")) := by
  have h := c9_is_ready_browsers_divergence
    (ServiceDiscovery.init "machinekit" ⟨"", []⟩ ["10.0.0.1"] 500)
    (.service (Service.init "w")) (by decide) rfl rfl
  exact ⟨h.2.2.1, h.2.1, h.2.2.2.2.1, h.2.2.2.2.2.1⟩

/-! ## C6 -/

/-- `clear_service_infos` empties the collection, clears `ready`, and
resets the resolved fields. -/
theorem clear_service_infos_fst (s : Service) :
    (s.clear_service_infos).1 =
      { s with service_infos := [], name := "", uri := "", uuid := "",
               version := .int 0, _ready := false } := by
  unfold Service.clear_service_infos
  rw [update_fst_nil _ rfl]

/-- The record-clearing fold of `_stop_discovery`, characterised. -/
theorem clearFold (l : List Service) (acc : List Service × List (Nat × Bool)) :
    l.foldl
      (fun (acc : List Service × List (Nat × Bool)) s =>
        let r := s.clear_service_infos
        (acc.1 ++ [r.1], acc.2 ++ r.2))
      acc =
    (acc.1 ++ l.map (fun s => (s.clear_service_infos).1),
     acc.2 ++ (l.map (fun s => (s.clear_service_infos).2)).flatten) := by
  induction l generalizing acc with
  | nil => simp
  | cons s t ih => simp [ih]

/-- `stop()` on a running instance, characterised: `is_ready` drops, the
handle lists empty, every registered service is cleared. -/
theorem stop_running (sd : ServiceDiscovery) (h : sd._browsers ≠ []) :
    sd.stop =
      ({ sd with is_ready := false, _zeroconfs := [], _browsers := [],
                 services := sd.services.map (fun s => (s.clear_service_infos).1) },
       (sd.services.map (fun s => (s.clear_service_infos).2)).flatten) := by
  unfold ServiceDiscovery.stop ServiceDiscovery.stop_discovery
  rw [if_neg (by simpa using h)]
  simp only [clearFold, List.nil_append]

/-- C6: `stop()` on a running instance (open browsing sessions) releases
every session handle, sets `is_ready` to false, and clears every registered
service's record collection, forcing each service not-ready with reset
resolved fields; on a non-running instance `stop()` is a no-op. -/
theorem c6_stop_clears (sd : ServiceDiscovery) :
    (sd._browsers = [] → sd.stop = (sd, [])) ∧
    (sd._browsers ≠ [] →
      (sd.stop).1.is_ready = false ∧
      (sd.stop).1._browsers = [] ∧
      (sd.stop).1._zeroconfs = [] ∧
      (sd.stop).1.services = sd.services.map (fun s => (s.clear_service_infos).1) ∧
      ∀ s ∈ (sd.stop).1.services,
        s.service_infos = [] ∧ s._ready = false ∧ s.name = "" ∧ s.uri = "" ∧
        s.uuid = "" ∧ s.version = VersionValue.int 0) := by
  constructor
  · intro h
    unfold ServiceDiscovery.stop
    rw [if_pos (by simp [h])]
  · intro h
    rw [stop_running sd h]
    refine ⟨rfl, rfl, rfl, rfl, ?_⟩
    intro s hs
    simp only [List.mem_map] at hs
    obtain ⟨t, -, rfl⟩ := hs
    rw [clear_service_infos_fst]
    exact ⟨rfl, rfl, rfl, rfl, rfl, rfl⟩

/-- Witness for C6: a running discovery with two record-holding services
ends with both services empty and not ready, and `is_ready` false; and the
no-op case on a fresh instance. -/
theorem c6_witness :
    (defaultServiceDiscovery.stop = (defaultServiceDiscovery, [])) ∧
    (let sdr : ServiceDiscovery :=
      { defaultServiceDiscovery with
        is_ready := true
        _browsers := [⟨"_machinekit._tcp.local.", none, 500⟩]
        _zeroconfs := [⟨false⟩]
        services :=
          [((Service.init "webtalk").add_service_info ⟨"w1", "t", []⟩).1,
           ((Service.init "halrcomp").add_service_info ⟨"h1", "t", []⟩).1] }
     (sdr.stop).1.is_ready = false ∧
     ∀ s ∈ (sdr.stop).1.services, s.service_infos = [] ∧ s._ready = false) := by
  constructor
  · exact (c6_stop_clears defaultServiceDiscovery).1 rfl
  · have h := (c6_stop_clears
      { defaultServiceDiscovery with
        is_ready := true
        _browsers := [⟨"_machinekit._tcp.local.", none, 500⟩]
        _zeroconfs := [⟨false⟩]
        services :=
          [((Service.init "webtalk").add_service_info ⟨"w1", "t", []⟩).1,
           ((Service.init "halrcomp").add_service_info ⟨"h1", "t", []⟩).1] }).2
      (by simp)
    exact ⟨h.1, fun s hs => ⟨(h.2.2.2.2 s hs).1, (h.2.2.2.2 s hs).2.1⟩⟩

/-! ## C4 -/

/-- When the TXT loop returns without raising, the returned flag is the
incoming flag AND-ed with "every configured key is present with exactly the
configured value". -/
theorem checkTxtRecords_ok (props : List (String × String)) :
    ∀ (l : List (String × String)) (flag b : Bool),
      checkTxtRecords props l flag = .ok b →
      b = (flag && l.all (fun kv => propGetOpt props kv.1 == some kv.2)) := by
  intro l
  induction l with
  | nil =>
    intro flag b h
    unfold checkTxtRecords at h
    cases h
    simp
  | cons kv rest ih =>
    intro flag b h
    obtain ⟨k, v⟩ := kv
    unfold checkTxtRecords at h
    cases hp : propGetOpt props k with
    | none => rw [hp] at h; cases h
    | some w =>
      rw [hp] at h
      simp only [] at h
      by_cases hw : w = v
      · rw [if_neg (by simp [hw])] at h
        have := ih flag b h
        simp only [this, hp, List.all_cons]
        simp [hw]
      · rw [if_pos (by simp [hw])] at h
        cases h
        simp [hp, hw]

/-- C4 counterexample: a filter requiring `service=hal` applied to a record
with no TXT properties raises `KeyError` — the call crashes rather than
treating the record as a non-match. -/
theorem c4_counterexample :
    (ServiceDiscoveryFilter.mk "" [("service", "hal")]).matches_service_info
        ⟨"x", "t", []⟩ = .error (.keyError "service") ∧
    ∀ b : Bool,
      (ServiceDiscoveryFilter.mk "" [("service", "hal")]).matches_service_info
        ⟨"x", "t", []⟩ ≠ .ok b := by
  refine ⟨rfl, ?_⟩
  intro b h
  rw [show (ServiceDiscoveryFilter.mk "" [("service", "hal")]).matches_service_info
      ⟨"x", "t", []⟩ = .error (.keyError "service") from rfl] at h
  cases h

/-- C4 amended: `matches` raises `TypeError` on a non-record argument; when
it returns without raising it returns true iff the filter name is a
substring of the record name and every configured TXT key maps to exactly
the configured value; but when a configured TXT key is absent from the
record's properties the strict lookup raises `KeyError` (shown here for the
first configured key) instead of treating the record as a non-match. -/
theorem c4_filter_matches (f : ServiceDiscoveryFilter) (info : ServiceInfo)
    (tag : String) (b : Bool) (k v : String) (rest : List (String × String)) :
    (f.matchesObject (.other tag) = .error (.typeError "must pass a ServiceInfo object")) ∧
    (f.matches_service_info info = .ok b →
      (b = true ↔ (pyIn f.name info.name = true ∧
        ∀ kv ∈ f.txt_records, propGetOpt info.properties kv.1 = some kv.2))) ∧
    (f.txt_records = (k, v) :: rest → propGetOpt info.properties k = none →
      f.matches_service_info info = .error (.keyError k)) := by
  refine ⟨rfl, ?_, ?_⟩
  · intro h
    have hb := checkTxtRecords_ok info.properties f.txt_records (pyIn f.name info.name) b h
    rw [hb]
    simp [List.all_eq_true]
  · intro htxt hk
    unfold ServiceDiscoveryFilter.matches_service_info
    rw [htxt]
    unfold checkTxtRecords
    rw [hk]

/-- Witness for C4: the type error on a non-record, the exact-match
characterisation on a record carrying `service=hal`, and the `KeyError` on
a record lacking the configured key. -/
theorem c4_witness :
    ((ServiceDiscoveryFilter.mk "" [("service", "hal")]).matchesObject (.other "str")
      = .error (.typeError "must pass a ServiceInfo object")) ∧
    (true = true ↔ (pyIn "" "x" = true ∧
      ∀ kv ∈ [("service", "hal")],
        propGetOpt [("service", "hal")] kv.1 = some kv.2)) ∧
    ((ServiceDiscoveryFilter.mk "" [("service", "hal")]).matches_service_info
      ⟨"x", "t", []⟩ = .error (.keyError "service")) := by
  have h1 := c4_filter_matches (ServiceDiscoveryFilter.mk "" [("service", "hal")])
    ⟨"x", "t", [("service", "hal")]⟩ "str" true "service" "hal" []
  have h2 := c4_filter_matches (ServiceDiscoveryFilter.mk "" [("service", "hal")])
    ⟨"x", "t", []⟩ "str" true "service" "hal" []
  exact ⟨h1.1, h1.2.1 rfl, h2.2.2 rfl rfl⟩

/-! ## C5 -/

/-- The dispatch loop, characterised when the global filter evaluates
without raising: each service is transformed by `act` exactly when the
filter matched and the service's own predicate matched. -/
theorem dispatchLoop_ok (filter : ServiceDiscoveryFilter) (info : ServiceInfo)
    (act : Service → ServiceInfo → Service × List (Nat × Bool)) (l : List Service) (fm : Bool)
    (hf : filter.matches_service_info info = .ok fm) :
    ∃ evs, dispatchLoop filter info act l =
      .ok (l.map (fun s => if fm && s.matches_service_info info then (act s info).1 else s),
           evs) := by
  induction l with
  | nil => exact ⟨[], rfl⟩
  | cons s t ih =>
    obtain ⟨evs, he⟩ := ih
    refine ⟨(if fm && s.matches_service_info info then act s info else (s, [])).2 ++ evs, ?_⟩
    unfold dispatchLoop
    rw [hf]
    simp only [he]
    simp [apply_ite]

/-- C5: a record-added event with failed resolution is ignored with no
state change; with a resolved record (and the global filter evaluating
without raising, to `fm`), every registered service receives the record iff
both `fm` holds and its own `matches_service_info` predicate holds, and is
left untouched otherwise. -/
theorem c5_record_added_fanout (sd : ServiceDiscovery) (info : ServiceInfo) (fm : Bool)
    (hf : sd.filter.matches_service_info info = .ok fm) :
    sd.add_service none = .ok (sd, []) ∧
    ∃ evs, sd.add_service (some info) =
      .ok ({ sd with
              services := sd.services.map (fun s =>
                if fm && s.matches_service_info info then (s.add_service_info info).1
                else s) },
           evs) := by
  refine ⟨rfl, ?_⟩
  obtain ⟨evs, he⟩ := dispatchLoop_ok sd.filter info Service.add_service_info sd.services fm hf
  refine ⟨evs, ?_⟩
  unfold ServiceDiscovery.add_service
  simp only []
  rw [he]
  rfl

/-- Witness for C5 (the spec's two-service scenario): services of type
`webtalk` and `halrcomp`, a record with TXT `service=webtalk` — only the
`webtalk` service receives the record; failed resolution is a no-op. -/
theorem c5_witness :
    (let sdw : ServiceDiscovery :=
      { defaultServiceDiscovery with
        services := [Service.init "webtalk", Service.init "halrcomp"] }
     let infow : ServiceInfo :=
      ⟨"w1._machinekit._tcp.local.", "_machinekit._tcp.local.",
       [("service", "webtalk"), ("dsn", "ws://10.0.0.5:8080"), ("uuid", "abc-123")]⟩
     sdw.add_service none = .ok (sdw, []) ∧
     ∃ evs, sdw.add_service (some infow) =
       .ok ({ sdw with
               services := sdw.services.map (fun s =>
                 if true && s.matches_service_info infow then (s.add_service_info infow).1
                 else s) },
            evs)) :=
  c5_record_added_fanout
    { defaultServiceDiscovery with
      services := [Service.init "webtalk", Service.init "halrcomp"] }
    ⟨"w1._machinekit._tcp.local.", "_machinekit._tcp.local.",
     [("service", "webtalk"), ("dsn", "ws://10.0.0.5:8080"), ("uuid", "abc-123")]⟩
    true rfl

/-! ## C7 -/

/-- C7 (code bug, shown at the failing input): with records `a` then `b`
(resolved name `"a"`), `remove_record(b)` is claimed to remove the first
stored record named `"b"` — i.e. `b`, leaving `[a]` — but because the
source's loop variable shadows the parameter, the comparison is against the
service's own resolved name and the *first* record `a` is removed, leaving
`[b]`. -/
theorem c7_remove_shadowed_parameter :
    (let a : ServiceInfo := ⟨"a", "t", []⟩
     let b : ServiceInfo := ⟨"b", "t", []⟩
     let s2 := (((Service.init "x").add_service_info a).1.add_service_info b).1
     s2.service_infos = [a, b] ∧ s2.name = "a" ∧
     (s2.remove_service_info b).1.service_infos = [b] ∧
     (s2.remove_service_info b).1.service_infos ≠ [a]) := by
  refine ⟨rfl, rfl, rfl, ?_⟩
  decide
